import Mathlib

/-!
Shallow embedding of `src/codex_ea/main.py`: a minimal CLI probe that loads
configuration from the environment (optionally pre-populated from a `.env`
file), builds an OpenAI client, assembles one fixed two-message streaming
request, and writes streamed text deltas to stdout.

Conventions of the embedding:
* The process environment is an association list `Env`; `getenv` is
  first-match lookup, mirroring `os.getenv`.
* The filesystem is passed explicitly: each optional prompt file is an
  `Option String` (`none` = the file does not exist, `some s` = it exists
  with contents `s`).
* Python string truthiness (`if not api_key`, `if base_url`, …) is embedded
  as an explicit emptiness test.
* `print` calls become an explicit list of stdout writes; stderr and the
  exit code are explicit fields of the outcome.
-/

namespace CodexEA

/-- The process environment / a parsed `.env` file: ordered key-value pairs. -/
abbrev Env : Type := List (String × String)

/-- `os.getenv`: first binding of the name, if any. -/
def getenv : Env → String → Option String
  | [], _ => none
  | (k, v) :: rest, name => if k = name then some v else getenv rest name

/-- `load_dotenv(dotenv_path=".env", override=False)`: each binding of the
`.env` file is added to the environment only when the variable is not
already present there. -/
def load_dotenv (env : Env) (dotenvFile : Env) : Env :=
  env ++ dotenvFile.filter (fun p => (getenv env p.1).isNone)

/-- `PROMPT_TEXT` from `main.py`. -/
def PROMPT_TEXT : String :=
  "What model are you, and what application are you currently being used inside of?"

/-- An `httpx.Client(...)`: only the `verify` flag matters to this program. -/
structure HttpxClient where
  verify : Bool
deriving DecidableEq, Repr

/-- The keyword arguments passed to the `OpenAI(...)` constructor.
`base_url = none` / `http_client = none` mean the key is absent from
`client_kwargs`, so the SDK default applies. -/
structure ClientKwargs where
  api_key : String
  base_url : Option String := none
  http_client : Option HttpxClient := none
deriving DecidableEq, Repr

/-- `build_openai_client`: `allow_insecure` is an exact string comparison
with `"1"`; the base URL is forwarded only when truthy (non-empty); an
insecure `httpx.Client` is attached only when `allow_insecure` holds. -/
def build_openai_client (env : Env) (api_key : String) : ClientKwargs :=
  let allow_insecure := getenv env "OPENAI_ALLOW_INSECURE_SSL" = some "1"
  let kwargs : ClientKwargs := { api_key := api_key }
  let kwargs :=
    match getenv env "OPENAI_BASE_URL" with
    | some u => if u = "" then kwargs else { kwargs with base_url := some u }
    | none => kwargs
  if allow_insecure then { kwargs with http_client := some { verify := false } }
  else kwargs

/-- Whether the transport the client ends up with verifies TLS certificates:
the default `httpx` transport verifies; an explicit `http_client` uses its
own `verify` flag. -/
def clientVerifiesTLS (c : ClientKwargs) : Bool :=
  match c.http_client with
  | none => true
  | some h => h.verify

/-- Python's `str.strip()`: drop leading and trailing whitespace
characters. -/
def strip (s : String) : String :=
  ⟨((s.data.dropWhile Char.isWhitespace).reverse.dropWhile
      Char.isWhitespace).reverse⟩

/-- `load_instructions`: `none` when the file is missing; otherwise the
stripped contents, with the empty result mapped to `none`
(`return instructions or None`). -/
def load_instructions (fileContents : Option String) : Option String :=
  match fileContents with
  | none => none
  | some s =>
    let instructions := strip s
    if instructions = "" then none else some instructions

/-- `load_system_prompt`: same shape as `load_instructions`, over the
system-prompt file. -/
def load_system_prompt (fileContents : Option String) : Option String :=
  match fileContents with
  | none => none
  | some s =>
    let instructions := strip s
    if instructions = "" then none else some instructions

/-- One part of the user message content list
(`{"type": "input_text", "text": ...}`). -/
structure InputPart where
  type : String
  text : String
deriving DecidableEq, Repr

/-- The `content` value of a message: a plain string, Python `None`, or a
list of typed parts. -/
inductive MessageContent where
  | str (s : String)
  | null
  | parts (ps : List InputPart)
deriving DecidableEq, Repr

/-- One entry of the `input` message list. -/
structure Message where
  role : String
  content : MessageContent
deriving DecidableEq, Repr

/-- The keyword arguments of `client.responses.stream(**stream_kwargs)`:
`instructions = none` means the key is absent from `stream_kwargs`. -/
structure StreamRequest where
  model : String
  input : List Message
  store : Bool
  instructions : Option String := none
deriving DecidableEq, Repr

/-- A stream event as the consumer sees it: a `type` tag and the `delta`
payload (only meaningful for text-delta events). -/
structure Event where
  type : String
  delta : String := ""
deriving DecidableEq, Repr

/-- `stream_response_text`, as the list of strings written to stdout in
order: a text-delta event writes its delta (`print(event.delta, end="")`),
a completion event writes a newline (`print()`), every other event writes
nothing. -/
def stream_response_text : List Event → List String
  | [] => []
  | e :: rest =>
    if e.type = "response.output_text.delta" then
      e.delta :: stream_response_text rest
    else if e.type = "response.completed" then
      "\n" :: stream_response_text rest
    else
      stream_response_text rest

/-- The text on stdout after a list of writes: their concatenation. -/
def stdoutOf : List String → String
  | [] => ""
  | w :: ws => w ++ stdoutOf ws

/-- Observable outcome of `main` up to the network call: either the process
exited early (with the text written to stderr and the exit status), or it
constructed a client and issued exactly one streaming request. -/
inductive MainOutcome where
  | exited (stderrText : String) (code : Nat)
  | issued (client : ClientKwargs) (req : StreamRequest)
deriving DecidableEq, Repr

/-- How many requests an outcome sends over the network. -/
def requestsIssued : MainOutcome → Nat
  | .exited _ _ => 0
  | .issued _ _ => 1

/-- `main` up to the point the streaming request is issued.  Inputs: the
process environment, the parsed `.env` file (empty list when absent), and
the contents of the two optional prompt files. -/
def main (env0 dotenvFile : Env) (instrFile sysFile : Option String) :
    MainOutcome :=
  let env := load_dotenv env0 dotenvFile
  match getenv env "OPENAI_API_KEY" with
  | none => .exited "Missing OPENAI_API_KEY environment variable.\n" 1
  | some api_key =>
    if api_key = "" then
      .exited "Missing OPENAI_API_KEY environment variable.\n" 1
    else
      let model := (getenv env "OPENAI_MODEL").getD "gpt-5"
      let client := build_openai_client env api_key
      let instructions := load_instructions instrFile
      let sys_prompt := load_system_prompt sysFile
      let input_messages : List Message :=
        [ { role := "system"
            content := match sys_prompt with
              | some s => .str s
              | none => .null },
          { role := "user"
            content := .parts [{ type := "input_text", text := PROMPT_TEXT }] } ]
      let req : StreamRequest :=
        { model := model
          input := input_messages
          store := false
          instructions :=
            match instructions with
            | some s => if s = "" then none else some s
            | none => none }
      .issued client req

/-- A transport-layer error surfaced by the SDK's event iterator. -/
abbrev TransportError : Type := String

/-- A live stream as the `for` loop sees it: each pull either yields the
next event or raises a transport error. -/
abbrev StreamItems : Type := List (Except TransportError Event)

/-- Running `stream_response_text` over a live stream that may raise:
events are consumed strictly in order, writes accumulate, and the first
raised error aborts the loop and propagates. -/
def consumeStream : StreamItems → List String → Except TransportError (List String)
  | [], acc => .ok acc
  | .error e :: _, _ => .error e
  | .ok ev :: rest, acc =>
    if ev.type = "response.output_text.delta" then
      consumeStream rest (acc ++ [ev.delta])
    else if ev.type = "response.completed" then
      consumeStream rest (acc ++ ["\n"])
    else
      consumeStream rest acc

/-- The `with client.responses.stream(...) as stream:` scope.  The body
consumes the stream (and any error it raises propagates uncaught, since the
body has no handler); the second component records that the context
manager's release (`__exit__`) ran, which Python guarantees on every exit
path of a `with` block. -/
def withStreamScope (items : StreamItems) :
    Except TransportError (List String) × Bool :=
  (consumeStream items [], true)

/-- The process exit status after the streaming scope: 0 on a normal
return, 1 when an uncaught exception terminates the interpreter. -/
def processExitCode (r : Except TransportError (List String)) : Nat :=
  match r with
  | .ok _ => 0
  | .error _ => 1

/-- The per-event stdout contribution as the specification words it: the
delta string for a text-delta event, a single newline for a completion
event, and the empty string for every other event kind. -/
def specEventOutput (e : Event) : String :=
  if e.type = "response.output_text.delta" then e.delta
  else if e.type = "response.completed" then "\n"
  else ""

/-- Number of completion events in a sequence. -/
def completedCount : List Event → Nat
  | [] => 0
  | e :: rest =>
    (if e.type = "response.completed" then 1 else 0) + completedCount rest

/-- Number of newline characters in a string. -/
def newlineCount (s : String) : Nat := s.data.count '\n'

/-- The string ends with a newline character. -/
def hasTrailingNewline (s : String) : Prop := s.data.getLast? = some '\n'

instance (s : String) : Decidable (hasTrailingNewline s) := by
  unfold hasTrailingNewline; infer_instance

/- ### Helper lemmas -/

theorem getenv_append_left (a b : Env) (name v : String)
    (h : getenv a name = some v) : getenv (a ++ b) name = some v := by
  induction a with
  | nil => simp [getenv] at h
  | cons p rest ih =>
    obtain ⟨k, w⟩ := p
    rw [List.cons_append]
    unfold getenv at h ⊢
    by_cases hk : k = name
    · rw [if_pos hk] at h ⊢; exact h
    · rw [if_neg hk] at h ⊢; exact ih h

theorem build_openai_client_http_client (env : Env) (k : String) :
    (build_openai_client env k).http_client =
      (if getenv env "OPENAI_ALLOW_INSECURE_SSL" = some "1"
       then some { verify := false } else none) := by
  unfold build_openai_client
  by_cases h : getenv env "OPENAI_ALLOW_INSECURE_SSL" = some "1" <;>
    cases hgb : getenv env "OPENAI_BASE_URL" <;>
    simp only [h, hgb, if_true, if_false, ite_true, ite_false] <;>
    (try simp) <;> (try split) <;> rfl

theorem build_openai_client_base_url (env : Env) (k : String) :
    (build_openai_client env k).base_url =
      (match getenv env "OPENAI_BASE_URL" with
       | some u => if u = "" then none else some u
       | none => none) := by
  unfold build_openai_client
  by_cases h : getenv env "OPENAI_ALLOW_INSECURE_SSL" = some "1" <;>
    cases hgb : getenv env "OPENAI_BASE_URL" <;>
    simp only [h, hgb, if_true, if_false, ite_true, ite_false] <;>
    (try simp) <;> (try split) <;> rfl

/- ### Claim theorems -/

/-- C3: if the API key environment variable is unset after the optional
`.env` loading, `main` writes the diagnostic to stderr, exits with status
exactly 1, and issues zero requests (no client is built, nothing is
sent). -/
theorem missing_api_key (env0 dotenvFile : Env) (instrFile sysFile : Option String)
    (h : getenv (load_dotenv env0 dotenvFile) "OPENAI_API_KEY" = none) :
    main env0 dotenvFile instrFile sysFile =
      .exited "Missing OPENAI_API_KEY environment variable.\n" 1 ∧
    requestsIssued (main env0 dotenvFile instrFile sysFile) = 0 := by
  simp [main, h, requestsIssued]

/-- Witness for C3: with an empty environment and no `.env` file the
program exits with status 1 and the diagnostic, issuing no request. -/
theorem missing_api_key_witness :
    main [] [] none none =
      .exited "Missing OPENAI_API_KEY environment variable.\n" 1 ∧
    requestsIssued (main [] [] none none) = 0 :=
  missing_api_key [] [] none none rfl

/-- C4: the transport skips TLS certificate verification iff the
environment variable `OPENAI_ALLOW_INSECURE_SSL` equals the literal
string "1"; for every other value (and when unset) verification remains
enabled exactly as in the default case. -/
theorem tls_opt_in (env : Env) (api_key : String) :
    (clientVerifiesTLS (build_openai_client env api_key) = false ↔
      getenv env "OPENAI_ALLOW_INSECURE_SSL" = some "1") ∧
    (getenv env "OPENAI_ALLOW_INSECURE_SSL" ≠ some "1" →
      (build_openai_client env api_key).http_client = none) := by
  constructor
  · unfold clientVerifiesTLS
    rw [build_openai_client_http_client]
    by_cases h : getenv env "OPENAI_ALLOW_INSECURE_SSL" = some "1" <;>
      simp [h]
  · intro h
    rw [build_openai_client_http_client, if_neg h]

/-- Witness for C4: with the flag set to `"true"` (not `"1"`) the client
still verifies TLS and no custom transport is attached. -/
theorem tls_opt_in_witness :
    (clientVerifiesTLS
        (build_openai_client [("OPENAI_ALLOW_INSECURE_SSL", "true")] "k") = false ↔
      getenv [("OPENAI_ALLOW_INSECURE_SSL", "true")]
        "OPENAI_ALLOW_INSECURE_SSL" = some "1") ∧
    (getenv [("OPENAI_ALLOW_INSECURE_SSL", "true")]
        "OPENAI_ALLOW_INSECURE_SSL" ≠ some "1" →
      (build_openai_client [("OPENAI_ALLOW_INSECURE_SSL", "true")] "k").http_client
        = none) :=
  tls_opt_in [("OPENAI_ALLOW_INSECURE_SSL", "true")] "k"

/-- C7: loading the `.env` file never overrides a variable already present
in the process environment — lookup after the merge still returns the
pre-existing environment value. -/
theorem dotenv_env_wins (env dotenvFile : Env) (name v : String)
    (h : getenv env name = some v) :
    getenv (load_dotenv env dotenvFile) name = some v := by
  unfold load_dotenv
  exact getenv_append_left _ _ _ _ h

/-- Witness for C7: the API key set in both the environment and the `.env`
file resolves to the environment value. -/
theorem dotenv_env_wins_witness :
    getenv (load_dotenv [("OPENAI_API_KEY", "env-key")]
      [("OPENAI_API_KEY", "file-key")]) "OPENAI_API_KEY" = some "env-key" :=
  dotenv_env_wins [("OPENAI_API_KEY", "env-key")]
    [("OPENAI_API_KEY", "file-key")] "OPENAI_API_KEY" "env-key" rfl

/-- Counterexample to C8 as stated: with `OPENAI_BASE_URL` provided as the
empty string, the value is NOT forwarded to the client construction step —
no `base_url` key is passed at all (the Python truthiness test `if
base_url:` rejects the empty string). -/
theorem base_url_empty_counterexample :
    getenv [("OPENAI_BASE_URL", "")] "OPENAI_BASE_URL" = some "" ∧
    (build_openai_client [("OPENAI_BASE_URL", "")] "k").base_url ≠ some "" ∧
    (build_openai_client [("OPENAI_BASE_URL", "")] "k").base_url = none := by
  exact ⟨rfl, by decide, rfl⟩

/-- C8 (amended): every non-empty provided value of `OPENAI_BASE_URL` is
forwarded verbatim and unmodified to the client construction step; when
the variable is unset or empty, no base-URL override is passed and the
SDK default endpoint applies. -/
theorem base_url_forwarding :
    (∀ (env : Env) (k v : String), getenv env "OPENAI_BASE_URL" = some v →
      v ≠ "" → (build_openai_client env k).base_url = some v) ∧
    (∀ (env : Env) (k : String),
      (getenv env "OPENAI_BASE_URL" = none ∨
       getenv env "OPENAI_BASE_URL" = some "") →
      (build_openai_client env k).base_url = none) := by
  constructor
  · intro env k v hv hne
    rw [build_openai_client_base_url, hv]
    simp [hne]
  · intro env k hv
    rcases hv with hv | hv <;> rw [build_openai_client_base_url, hv]
    rfl

/-- Witness for C8 (amended): a concrete non-empty base URL is forwarded
verbatim. -/
theorem base_url_forwarding_witness :
    (build_openai_client [("OPENAI_BASE_URL", "https://example.test/v1")]
      "k").base_url = some "https://example.test/v1" :=
  base_url_forwarding.1 [("OPENAI_BASE_URL", "https://example.test/v1")]
    "k" "https://example.test/v1" rfl (by decide)

/-- C1: whenever the API key resolves to a non-empty value, `main` issues
exactly one request, its `input` is exactly the two messages
[system, user] in that order, the user message content is the fixed
diagnostic prompt text verbatim, and the `store` field is included and
set to `false`. -/
theorem request_shape (env0 dotenvFile : Env) (instrFile sysFile : Option String)
    (key : String)
    (hk : getenv (load_dotenv env0 dotenvFile) "OPENAI_API_KEY" = some key)
    (hne : key ≠ "") :
    ∃ client req sysContent,
      main env0 dotenvFile instrFile sysFile = .issued client req ∧
      requestsIssued (main env0 dotenvFile instrFile sysFile) = 1 ∧
      req.input =
        [{ role := "system", content := sysContent },
         { role := "user",
           content := .parts
             [{ type := "input_text",
                text := "What model are you, and what application are you currently being used inside of?" }] }] ∧
      req.store = false := by
  simp only [main, hk, if_neg hne]
  exact ⟨_, _, _, rfl, rfl, rfl, rfl⟩

/-- Witness for C1: a concrete run with a present API key. -/
theorem request_shape_witness :
    ∃ client req sysContent,
      main [("OPENAI_API_KEY", "sk-test")] [] none none = .issued client req ∧
      requestsIssued (main [("OPENAI_API_KEY", "sk-test")] [] none none) = 1 ∧
      req.input =
        [{ role := "system", content := sysContent },
         { role := "user",
           content := .parts
             [{ type := "input_text",
                text := "What model are you, and what application are you currently being used inside of?" }] }] ∧
      req.store = false :=
  request_shape [("OPENAI_API_KEY", "sk-test")] [] none none "sk-test"
    rfl (by decide)

/-- C5: the request omits the `instructions` field when the instructions
file is absent or whitespace-only, and carries exactly the stripped file
contents when they are non-empty after stripping. -/
theorem instructions_field (env0 dotenvFile : Env)
    (instrFile sysFile : Option String) (key : String)
    (hk : getenv (load_dotenv env0 dotenvFile) "OPENAI_API_KEY" = some key)
    (hne : key ≠ "") :
    ∃ client req,
      main env0 dotenvFile instrFile sysFile = .issued client req ∧
      ((instrFile = none ∨ ∃ s, instrFile = some s ∧ strip s = "") →
        req.instructions = none) ∧
      (∀ s, instrFile = some s → strip s ≠ "" →
        req.instructions = some (strip s)) := by
  simp only [main, hk, if_neg hne]
  refine ⟨_, _, rfl, ?_, ?_⟩
  · rintro (h | ⟨s, rfl, hs⟩)
    · subst h; rfl
    · simp [load_instructions, hs]
  · rintro s rfl hs
    simp [load_instructions, hs]

/-- Witness for C5: a concrete instructions file whose contents carry
surrounding whitespace is attached stripped. -/
theorem instructions_field_witness :
    ∃ client req,
      main [("OPENAI_API_KEY", "sk-test")] [] (some "  follow codex  ") none
        = .issued client req ∧
      (((some "  follow codex  " : Option String) = none ∨
        ∃ s, (some "  follow codex  " : Option String) = some s ∧ strip s = "") →
        req.instructions = none) ∧
      (∀ s, (some "  follow codex  " : Option String) = some s →
        strip s ≠ "" → req.instructions = some (strip s)) :=
  instructions_field [("OPENAI_API_KEY", "sk-test")] []
    (some "  follow codex  ") none "sk-test" rfl (by decide)

/-- C9: every issued request has exactly two messages whose first is the
system message; when the system-prompt file is absent or whitespace-only,
that message is still present and its content is Python `None`. -/
theorem system_message_always (env0 dotenvFile : Env)
    (instrFile sysFile : Option String) (key : String)
    (hk : getenv (load_dotenv env0 dotenvFile) "OPENAI_API_KEY" = some key)
    (hne : key ≠ "") :
    ∃ client req sysContent,
      main env0 dotenvFile instrFile sysFile = .issued client req ∧
      req.input.length = 2 ∧
      req.input.head? = some { role := "system", content := sysContent } ∧
      ((sysFile = none ∨ ∃ s, sysFile = some s ∧ strip s = "") →
        sysContent = .null) := by
  simp only [main, hk, if_neg hne]
  refine ⟨_, _, _, rfl, rfl, rfl, ?_⟩
  rintro (h | ⟨s, rfl, hs⟩)
  · subst h; rfl
  · simp [load_system_prompt, hs]

/-- Witness for C9: with a whitespace-only system-prompt file the system
message is present with `None` content. -/
theorem system_message_always_witness :
    ∃ client req sysContent,
      main [("OPENAI_API_KEY", "sk-test")] [] none (some "   ")
        = .issued client req ∧
      req.input.length = 2 ∧
      req.input.head? = some { role := "system", content := sysContent } ∧
      (((some "   " : Option String) = none ∨
        ∃ s, (some "   " : Option String) = some s ∧ strip s = "") →
        sysContent = .null) :=
  system_message_always [("OPENAI_API_KEY", "sk-test")] [] none
    (some "   ") "sk-test" rfl (by decide)

/-- C2: the text written to stdout by the stream consumer is the in-order
concatenation of the per-event contributions the spec describes (delta for
a text-delta event, one newline for a completion event, nothing for any
other event kind), and on the sequence
[delta "Hi", delta " there", completed] it is exactly "Hi there\n". -/
theorem stream_output_concat (evs : List Event) :
    stdoutOf (stream_response_text evs) =
      stdoutOf (evs.map specEventOutput) ∧
    stdoutOf (stream_response_text
      [{ type := "response.output_text.delta", delta := "Hi" },
       { type := "response.output_text.delta", delta := " there" },
       { type := "response.completed" }]) = "Hi there\n" := by
  refine ⟨?_, by decide⟩
  induction evs with
  | nil => rfl
  | cons e rest ih =>
    by_cases h1 : e.type = "response.output_text.delta"
    · have es : stream_response_text (e :: rest) = e.delta :: stream_response_text rest := by
        rw [stream_response_text, if_pos h1]
      have eo : specEventOutput e = e.delta := by
        rw [specEventOutput, if_pos h1]
      rw [List.map_cons, es, eo]
      simp only [stdoutOf]
      rw [ih]
    · by_cases h2 : e.type = "response.completed"
      · have es : stream_response_text (e :: rest) = "\n" :: stream_response_text rest := by
          rw [stream_response_text, if_neg h1, if_pos h2]
        have eo : specEventOutput e = "\n" := by
          rw [specEventOutput, if_neg h1, if_pos h2]
        rw [List.map_cons, es, eo]
        simp only [stdoutOf]
        rw [ih]
      · have es : stream_response_text (e :: rest) = stream_response_text rest := by
          rw [stream_response_text, if_neg h1, if_neg h2]
        have eo : specEventOutput e = "" := by
          rw [specEventOutput, if_neg h1, if_neg h2]
        rw [List.map_cons, es, eo]
        simp only [stdoutOf]
        rw [ih, String.empty_append]

/-- A stream that contains a raised error makes `consumeStream` propagate
an error, whatever output was accumulated before. -/
theorem consumeStream_of_mem_error :
    ∀ (items : StreamItems) (acc : List String) (e : TransportError),
      Except.error e ∈ items →
      ∃ err, consumeStream items acc = Except.error err
  | [], _, _, h => absurd h (List.not_mem_nil _)
  | .error e2 :: _, _, _, _ => ⟨e2, rfl⟩
  | .ok ev :: rest, acc, e, h => by
    have h2 : Except.error e ∈ rest := by
      rcases List.mem_cons.mp h with h0 | h0
      · exact Except.noConfusion h0
      · exact h0
    unfold consumeStream
    split_ifs <;> exact consumeStream_of_mem_error rest _ e h2

/-- C6: if the event stream raises a transport error mid-sequence, the
error propagates out of the streaming scope uncaught (so the process exit
status is non-zero) and the scope's release still runs. -/
theorem stream_error_scope (items : StreamItems) (e : TransportError)
    (h : Except.error e ∈ items) :
    (withStreamScope items).2 = true ∧
    ∃ err, (withStreamScope items).1 = Except.error err ∧
      processExitCode (withStreamScope items).1 ≠ 0 := by
  obtain ⟨err, herr⟩ := consumeStream_of_mem_error items [] e h
  have hcode : processExitCode (withStreamScope items).1 ≠ 0 := by
    show processExitCode (consumeStream items []) ≠ 0
    rw [herr]
    exact Nat.one_ne_zero
  exact ⟨rfl, err, herr, hcode⟩

/-- Witness for C6: a stream yielding one delta and then raising. -/
theorem stream_error_scope_witness :
    (withStreamScope [Except.ok { type := "response.output_text.delta", delta := "x" },
        Except.error "boom"]).2 = true ∧
    ∃ err,
      (withStreamScope [Except.ok { type := "response.output_text.delta", delta := "x" },
          Except.error "boom"]).1 = Except.error err ∧
      processExitCode
        (withStreamScope [Except.ok { type := "response.output_text.delta", delta := "x" },
            Except.error "boom"]).1 ≠ 0 :=
  stream_error_scope _ "boom" (List.Mem.tail _ (List.Mem.head _))

theorem newlineCount_append (a b : String) :
    newlineCount (a ++ b) = newlineCount a + newlineCount b := by
  simp [newlineCount, String.data_append, List.count_append]

theorem newlineCount_eq_completedCount (evs : List Event)
    (h : ∀ e ∈ evs, e.type = "response.output_text.delta" →
      ('\n' : Char) ∉ e.delta.data) :
    newlineCount (stdoutOf (stream_response_text evs)) = completedCount evs := by
  induction evs with
  | nil => rfl
  | cons e rest ih =>
    have hrest : ∀ x ∈ rest, x.type = "response.output_text.delta" →
        ('\n' : Char) ∉ x.delta.data :=
      fun x hx => h x (List.mem_cons_of_mem _ hx)
    by_cases h1 : e.type = "response.output_text.delta"
    · have hd := h e (List.mem_cons_self _ _) h1
      have hne2 : ¬ e.type = "response.completed" := by rw [h1]; decide
      have es : stream_response_text (e :: rest) = e.delta :: stream_response_text rest := by
        rw [stream_response_text, if_pos h1]
      have ec : completedCount (e :: rest) = completedCount rest := by
        rw [completedCount, if_neg hne2]; omega
      rw [es, ec]
      simp only [stdoutOf]
      rw [newlineCount_append, ih hrest]
      have hz : newlineCount e.delta = 0 := by
        simp [newlineCount, List.count_eq_zero, hd]
      omega
    · by_cases h2 : e.type = "response.completed"
      · have es : stream_response_text (e :: rest) = "\n" :: stream_response_text rest := by
          rw [stream_response_text, if_neg h1, if_pos h2]
        have ec : completedCount (e :: rest) = 1 + completedCount rest := by
          rw [completedCount, if_pos h2]
        rw [es, ec]
        simp only [stdoutOf]
        rw [newlineCount_append, ih hrest]
        have hone : newlineCount "\n" = 1 := by decide
        omega
      · have es : stream_response_text (e :: rest) = stream_response_text rest := by
          rw [stream_response_text, if_neg h1, if_neg h2]
        have ec : completedCount (e :: rest) = completedCount rest := by
          rw [completedCount, if_neg h2]; omega
        rw [es, ec, ih hrest]

/-- C10 (amended): for event sequences whose delta payloads contain no
newline character, the number of newlines on stdout equals the number of
completion events, and with no completion event the output has no trailing
newline. -/
theorem completion_newlines (evs : List Event)
    (h : ∀ e ∈ evs, e.type = "response.output_text.delta" →
      ('\n' : Char) ∉ e.delta.data) :
    newlineCount (stdoutOf (stream_response_text evs)) = completedCount evs ∧
    (completedCount evs = 0 →
      ¬ hasTrailingNewline (stdoutOf (stream_response_text evs))) := by
  refine ⟨newlineCount_eq_completedCount evs h, ?_⟩
  intro h0 hlast
  have hcount : newlineCount (stdoutOf (stream_response_text evs)) = 0 := by
    rw [newlineCount_eq_completedCount evs h, h0]
  have hnotmem : ('\n' : Char) ∉ (stdoutOf (stream_response_text evs)).data :=
    List.count_eq_zero.mp hcount
  exact hnotmem (List.mem_of_mem_getLast? hlast)

/-- Counterexample to C10 as stated: a single text-delta event whose
payload itself ends in a newline yields output with a trailing newline
even though no completion event was received. -/
theorem completion_newlines_counterexample :
    completedCount [{ type := "response.output_text.delta", delta := "a\n" }] = 0 ∧
    hasTrailingNewline (stdoutOf (stream_response_text
      [{ type := "response.output_text.delta", delta := "a\n" }])) := by
  decide

/-- Witness for C10 (amended): a newline-free delta followed by one
completion event. -/
theorem completion_newlines_witness :
    newlineCount (stdoutOf (stream_response_text
      [{ type := "response.output_text.delta", delta := "Hi" },
       { type := "response.completed" }])) =
      completedCount
        [{ type := "response.output_text.delta", delta := "Hi" },
         { type := "response.completed" }] ∧
    (completedCount
        [{ type := "response.output_text.delta", delta := "Hi" },
         { type := "response.completed" }] = 0 →
      ¬ hasTrailingNewline (stdoutOf (stream_response_text
        [{ type := "response.output_text.delta", delta := "Hi" },
         { type := "response.completed" }]))) :=
  completion_newlines
    [{ type := "response.output_text.delta", delta := "Hi" },
     { type := "response.completed" }] (by decide)

end CodexEA
